import Mathlib

/-
Verification of the Twingate Linux tray core (src/src-tauri/src):
the service-state classifier, the network-data retry engine, the
wait-for-ready polling loop, the shared application state, the UTF-8
decoding discipline of the command executors, and the URL extractor.

The Rust code is shallowly embedded: pure functions become Lean
functions; the external command invocations of the retry and polling
loops become explicit oracles indexed by call count; machine integers
are modelled on Nat (the only arithmetic in the loops stays far below
the u32/u64 ranges for every caller in the repository); fallible code
returns Except.
-/

deriving instance DecidableEq for Except

namespace Twingate

/-! ## Rust string primitives

Rust strings are modelled as lists of Unicode scalar values
(`List Char`), with explicit UTF-8 byte lengths where the source
indexes by bytes. -/

/-- Unicode White_Space, the predicate behind Rust char::is_whitespace
and the regex class backslash-s (Unicode mode). -/
def isRustWhitespace (c : Char) : Bool :=
  c.isWhitespace || c.toNat = 0x0B || c.toNat = 0x0C || c.toNat = 0x85 ||
  c.toNat = 0xA0 || c.toNat = 0x1680 ||
  (0x2000 ≤ c.toNat && c.toNat ≤ 0x200A) ||
  c.toNat = 0x2028 || c.toNat = 0x2029 || c.toNat = 0x202F ||
  c.toNat = 0x205F || c.toNat = 0x3000

/-- Rust str::trim - remove leading and trailing whitespace. -/
def trimChars (cs : List Char) : List Char :=
  ((cs.dropWhile isRustWhitespace).reverse.dropWhile isRustWhitespace).reverse

/-- Per-char Unicode lowercase, as used by Rust str::to_lowercase.
Covers ASCII and Latin-1 uppercase and the one multi-char expansion
relevant here, U+0130 LATIN CAPITAL LETTER I WITH DOT ABOVE, which
lowercases to the two scalars U+0069 U+0307 (so the lowercased string
has a different byte length than the original). Unicode mappings
outside these ranges (and the Greek final-sigma context rule) are
modelled as identity; no input considered below contains them. -/
def charLowerRust (c : Char) : List Char :=
  if c.toNat = 0x130 then [Char.ofNat 0x69, Char.ofNat 0x307]
  else if 0x41 ≤ c.toNat && c.toNat ≤ 0x5A then [Char.ofNat (c.toNat + 0x20)]
  else if 0xC0 ≤ c.toNat && c.toNat ≤ 0xDE && c.toNat ≠ 0xD7 then
    [Char.ofNat (c.toNat + 0x20)]
  else [c]

/-- Rust str::to_lowercase. -/
def lowerChars (cs : List Char) : List Char :=
  (cs.map charLowerRust).flatten

/-- pat is a leading segment of cs (byte-level prefix test of
str::contains / str::find, expressed on scalars - valid for UTF-8
because the encoding is self-synchronizing). -/
def leadSeg : List Char → List Char → Bool
  | [], _ => true
  | _ :: _, [] => false
  | p :: ps, c :: cs => p == c && leadSeg ps cs

/-- Rust str::contains (substring occurrence). -/
def hasSub (pat : List Char) : List Char → Bool
  | [] => pat.isEmpty
  | c :: cs => leadSeg pat (c :: cs) || hasSub pat cs

/-- str::contains with a literal pattern. -/
def cont (hay : List Char) (pat : String) : Bool :=
  hasSub pat.data hay

/-- Rust str::find - byte offset of the first occurrence of pat. -/
def byteFindAux (pat : List Char) : List Char → Nat → Option Nat
  | [], acc => if pat.isEmpty then some acc else none
  | c :: cs, acc =>
    if leadSeg pat (c :: cs) then some acc
    else byteFindAux pat cs (acc + c.utf8Size)

def byteFind (hay pat : List Char) : Option Nat :=
  byteFindAux pat hay 0

/-- Rust str::len - length in UTF-8 bytes. -/
def utf8ByteLen (cs : List Char) : Nat :=
  (cs.map Char.utf8Size).sum

/-- Rust byte-range slicing text[i..]: some tail on a char boundary,
none when the byte index falls inside a character (Rust panics). -/
def sliceFromByte : List Char → Nat → Option (List Char)
  | cs, 0 => some cs
  | [], _ + 1 => none
  | c :: cs, n + 1 =>
    if c.utf8Size ≤ n + 1 then sliceFromByte cs (n + 1 - c.utf8Size) else none

/-- Rust char::to_ascii_lowercase. -/
def asciiLower (c : Char) : Char :=
  if 0x41 ≤ c.toNat && c.toNat ≤ 0x5A then Char.ofNat (c.toNat + 0x20) else c

/-- Rust str::eq_ignore_ascii_case. -/
def eqIgnoreAsciiCase (a b : List Char) : Bool :=
  a.map asciiLower == b.map asciiLower

/-! ## Service-state classifier (network.rs, ServiceState::from_status_output) -/

inductive ServiceState where
  | NotRunning
  | Starting
  | Connecting
  | Connected
  | AuthRequired
deriving DecidableEq, Repr

/-- The processed status text: trimmed then lowercased
(`output.trim().to_lowercase()`). -/
def procText (s : String) : List Char :=
  lowerChars (trimChars s.data)

/-- The auth-required keyword family, network.rs lines 29-38. -/
def authRequiredCond (o : List Char) : Bool :=
  cont o "authentication is required" ||
  cont o "auth required" ||
  cont o "authentication required" ||
  cont o "user authentication is required" ||
  cont o "needs authentication" ||
  cont o "not authenticated" ||
  cont o "authentication needed" ||
  cont o "please authenticate" ||
  cont o "requires authentication" ||
  (cont o "auth" && (cont o "required" || cont o "needed" || cont o "expired"))

/-- The not-running keyword family, network.rs lines 43-44. -/
def notRunningCond (o : List Char) : Bool :=
  cont o "not-running" || cont o "offline" || cont o "stopped" ||
  cont o "not running" || cont o "inactive" || cont o "dead"

/-- The starting keyword family, network.rs lines 47-48. -/
def startingCond (o : List Char) : Bool :=
  cont o "starting" || cont o "initializing" || cont o "booting" ||
  cont o "loading" || cont o "launching"

/-- The connecting keyword family, network.rs lines 51-52. -/
def connectingCond (o : List Char) : Bool :=
  cont o "connecting" || cont o "authenticating" || cont o "handshake" ||
  cont o "establishing" || cont o "negotiating"

/-- The connected keyword family, network.rs lines 55-56. -/
def connectedCond (o : List Char) : Bool :=
  cont o "online" || cont o "connected" || cont o "ready" ||
  cont o "active" || cont o "established"

/-- ServiceState::from_status_output. -/
def ServiceState.fromStatusOutput (s : String) : ServiceState :=
  let o := procText s
  if authRequiredCond o then .AuthRequired
  else if notRunningCond o then .NotRunning
  else if startingCond o then .Starting
  else if connectingCond o then .Connecting
  else if connectedCond o then .Connected
  else .Connecting

/-! ## Error taxonomy (error.rs, TwingateError)

Payloads of library-sourced errors (serde_json::Error,
tauri_plugin_shell::Error, tauri::Error, arboard::Error) are modelled
as their display strings. -/

inductive TwError where
  | ServiceNotRunning
  | ServiceConnecting
  | AuthenticationRequired
  | AuthenticationTimeout (seconds : Nat)
  | CommandFailed (command : String) (code : Int) (stderr : String)
  | CommandExecutionError (details : String)
  | JsonError (details : String)
  | InvalidUtf8
  | ResourceNotFound (id : String)
  | InvalidResourceId (id : String)
  | ClipboardError (details : String)
  | TrayError (details : String)
  | RetryLimitExceeded (attempts : Nat)
deriving DecidableEq, Repr

/-! ## Data model (models.rs) -/

structure InternetSecurity where
  mode : Int
  status : Int
deriving DecidableEq, Repr

structure Alias where
  address : String
  open_url : String
deriving DecidableEq, Repr

structure Resource where
  address : String
  admin_url : String
  «alias» : Option String
  aliases : List Alias
  auth_expires_at : Int
  auth_flow_id : String
  auth_state : String
  can_open_in_browser : Bool
  client_visibility : Int
  id : String
  name : String
  open_url : String
  resource_type : String
deriving DecidableEq, Repr

structure User where
  avatar_url : String
  email : String
  first_name : String
  id : String
  is_admin : Bool
  last_name : String
deriving DecidableEq, Repr

structure Network where
  admin_url : String
  full_tunnel_time_limit : Nat
  internet_security : InternetSecurity
  resources : List Resource
  user : User
deriving DecidableEq, Repr

/-! ## Shared application state (state.rs)

Instant is modelled as a Nat timestamp; the state-mutating methods take
the current instant as an explicit argument (Instant::now()). -/

inductive ServiceStatus where
  | NotRunning
  | Connected
  | Authenticating (url : String)
deriving DecidableEq, Repr

structure AppState where
  network : Option Network
  service_status : ServiceStatus
  last_update : Option Nat
  refreshing : Bool
deriving DecidableEq, Repr

/-- AppState::new (= Default: no network, NotRunning, no update). -/
def AppState.new : AppState :=
  { network := none, service_status := .NotRunning,
    last_update := none, refreshing := false }

/-- AppState::auth_url. -/
def AppState.auth_url (s : AppState) : Option String :=
  match s.service_status with
  | .Authenticating url => some url
  | _ => none

/-- AppState::update_network. -/
def AppState.update_network (s : AppState) (now : Nat) (network : Option Network) :
    AppState :=
  { s with
    network := network,
    service_status := if network.isSome then .Connected else .NotRunning,
    last_update := some now,
    refreshing := false }

/-- AppState::set_authenticating. -/
def AppState.set_authenticating (s : AppState) (now : Nat) (auth_url : String) :
    AppState :=
  { s with
    service_status := .Authenticating auth_url,
    network := none,
    last_update := some now,
    refreshing := false }

/-- The two mutating operations of AppState, for reasoning about
arbitrary call sequences. -/
inductive StateOp where
  | updateNetwork (now : Nat) (network : Option Network)
  | setAuthenticating (now : Nat) (url : String)
deriving DecidableEq, Repr

def applyOp (s : AppState) : StateOp → AppState
  | .updateNetwork now n => s.update_network now n
  | .setAuthenticating now url => s.set_authenticating now url

def runOps (ops : List StateOp) : AppState :=
  ops.foldl applyOp AppState.new

/-! ## Resources fetch (network.rs, try_get_resources_data)

The external pieces are oracles: the raw stdout of each command run
(or the error of a failed spawn / non-UTF-8 stdout), and the
serde_json parse of a resources document
(`from_slice::<Option<Network>>`), as a function from the trimmed
output to either a parsed value or a parse-error message. -/

def MAX_RETRIES : Nat := 8
def BASE_DELAY_MS : Nat := 1000
def MAX_DELAY_MS : Nat := 10000

def transitionalResponses : List String :=
  ["not connected", "offline", "connecting", "authenticating",
   "starting", "initializing", "waiting", "loading", "establishing",
   "handshaking", "negotiating", "not ready", "unavailable"]

/-- try_get_resources_data, as a function of the resources command
stdout (already UTF-8 decoded) and the JSON parser oracle. -/
def tryGetResourcesData (parse : String → Except String (Option Network))
    (outputStr : String) : Except TwError (Option Network) :=
  let trimmed := trimChars outputStr.data
  if trimmed.isEmpty then .error .ServiceConnecting
  else if cont (lowerChars trimmed) "authentication" ||
          cont (lowerChars trimmed) "auth required" ||
          cont (lowerChars trimmed) "not authenticated" ||
          cont (lowerChars trimmed) "please authenticate" ||
          cont (lowerChars trimmed) "login required" then
    .error .AuthenticationRequired
  else if transitionalResponses.any (fun r => eqIgnoreAsciiCase trimmed r.data) then
    .error .ServiceConnecting
  else if !(leadSeg [Char.ofNat 0x7b] trimmed || leadSeg ['['] trimmed) then
    (if cont (lowerChars trimmed) "auth" then .error .AuthenticationRequired
     else .error .ServiceConnecting)
  else
    match parse (String.mk trimmed) with
    | .ok network => .ok network
    | .error e => .error (.JsonError e)

/-- The result of one resources attempt: a command/decode failure from
the oracle propagates through the two question-mark operators of
try_get_resources_data. -/
def tryResources (parse : String → Except String (Option Network))
    (raw : Except TwError String) : Except TwError (Option Network) :=
  match raw with
  | .error e => .error e
  | .ok s => tryGetResourcesData parse s

/-! ## Retry engine (network.rs, get_network_data_with_retry) -/

/-- What one iteration of the retry loop decides, given the result of
the status command (get_service_state: raw stdout, or the error of a
failed spawn / non-UTF-8 stdout) and the result a resources attempt
would produce. `retry n` is the fall-through to the backoff path,
recording how many resources calls the iteration consumed. -/
inductive StepOutcome where
  | done (r : Except TwError (Option Network))
  | retry (resConsumed : Nat)
deriving DecidableEq, Repr

def fetchStep (parse : String → Except String (Option Network))
    (st : Except TwError String) (res : Except TwError String) : StepOutcome :=
  match st with
  | .ok s =>
    match ServiceState.fromStatusOutput s with
    | .NotRunning => .done (.ok none)
    | .AuthRequired => .done (.error .AuthenticationRequired)
    | .Connected =>
      match tryResources parse res with
      | .ok network => .done (.ok network)
      | .error .AuthenticationRequired => .done (.error .AuthenticationRequired)
      | .error .ServiceConnecting => .retry 1
      | .error e => .done (.error e)
    | .Starting => .retry 0
    | .Connecting => .retry 0
  | .error e =>
    match tryResources parse res with
    | .ok network => .done (.ok network)
    | .error .AuthenticationRequired => .done (.error .AuthenticationRequired)
    | .error .ServiceConnecting => .retry 1
    | .error _ => .done (.error e)

structure FetchOutcome where
  result : Except TwError (Option Network)
  /-- Loop iterations performed, each starting with one status attempt
  (the conditional extra status call inside the final log::debug! is
  logging and not modelled). -/
  attempts : Nat
  /-- The backoff delays slept, in order, in milliseconds. -/
  delays : List Nat
deriving DecidableEq, Repr

/-- The retry loop. `stEnv k` / `resEnv k` are the outcomes of the
k-th status / resources command. `remaining` carries
max_retries - retry_count, so the loop is structurally recursive; the
source guard retry_count >= max_retries is remaining = 0. -/
def fetchLoop (stEnv : Nat → Except TwError String)
    (resEnv : Nat → Except TwError String)
    (parse : String → Except String (Option Network))
    (maxRetries retryCount delayMs stIdx resIdx : Nat) :
    Nat → FetchOutcome
  | 0 =>
    match fetchStep parse (stEnv stIdx) (resEnv resIdx) with
    | .done r => ⟨r, retryCount + 1, []⟩
    | .retry _ => ⟨.error (.RetryLimitExceeded (maxRetries + 1)), retryCount + 1, []⟩
  | rem + 1 =>
    match fetchStep parse (stEnv stIdx) (resEnv resIdx) with
    | .done r => ⟨r, retryCount + 1, []⟩
    | .retry resConsumed =>
      let r := fetchLoop stEnv resEnv parse maxRetries (retryCount + 1)
        (min (delayMs * 2) MAX_DELAY_MS) (stIdx + 1) (resIdx + resConsumed) rem
      ⟨r.result, r.attempts, delayMs :: r.delays⟩

/-- get_network_data_with_retry. -/
def getNetworkDataWithRetry (stEnv resEnv : Nat → Except TwError String)
    (parse : String → Except String (Option Network))
    (maxRetries : Nat) : FetchOutcome :=
  fetchLoop stEnv resEnv parse maxRetries 0 BASE_DELAY_MS 0 0 maxRetries

/-- get_network_data. -/
def getNetworkData (stEnv resEnv : Nat → Except TwError String)
    (parse : String → Except String (Option Network)) : FetchOutcome :=
  getNetworkDataWithRetry stEnv resEnv parse MAX_RETRIES

/-! ## Wait-for-ready polling (network.rs, wait_for_service_ready)

Wall-clock time is explicit: `pollDur k` is the duration in
milliseconds of the k-th status command, each sleep adds 1000 ms, and
`elapsed` accumulates both, checked against the timeout at the top of
each iteration (start_time.elapsed() < timeout_duration). -/

structure WaitOutcome where
  result : Except TwError Unit
  polls : Nat
deriving DecidableEq, Repr

def waitLoop (stEnv : Nat → Except TwError String) (pollDur : Nat → Nat)
    (timeoutSeconds : Nat) (elapsed k : Nat) : WaitOutcome :=
  if _h : elapsed < timeoutSeconds * 1000 then
    match stEnv k with
    | .ok s =>
      if ServiceState.fromStatusOutput s = .Connected then ⟨.ok (), k + 1⟩
      else waitLoop stEnv pollDur timeoutSeconds (elapsed + pollDur k + 1000) (k + 1)
    | .error _ => waitLoop stEnv pollDur timeoutSeconds (elapsed + pollDur k + 1000) (k + 1)
  else ⟨.error (.AuthenticationTimeout timeoutSeconds), k⟩
termination_by timeoutSeconds * 1000 - elapsed
decreasing_by
  all_goals omega

/-- wait_for_service_ready. -/
def waitForServiceReady (stEnv : Nat → Except TwError String)
    (pollDur : Nat → Nat) (timeoutSeconds : Nat) : WaitOutcome :=
  waitLoop stEnv pollDur timeoutSeconds 0 0

/-- Whether a status-poll outcome is Ok(ServiceState::Connected). -/
def pollSeesConnected (r : Except TwError String) : Bool :=
  match r with
  | .ok s => ServiceState.fromStatusOutput s == .Connected
  | .error _ => false

/-- Wall-clock milliseconds consumed by the iterations k, k+1, ...,
k+kk-1 of the polling loop (each: one poll plus the 1000 ms sleep). -/
def relElapsed (pollDur : Nat → Nat) (k : Nat) : Nat → Nat
  | 0 => 0
  | kk + 1 => pollDur k + 1000 + relElapsed pollDur (k + 1) kk

/-- Wall-clock milliseconds elapsed when the k-th poll starts. -/
def elapsedBefore (pollDur : Nat → Nat) (k : Nat) : Nat :=
  relElapsed pollDur 0 k

/-! ## UTF-8 decoding (std::str::from_utf8, String::from_utf8_lossy)

Byte strings are lists of Nat below 256. The strict decoder mirrors
the standard UTF-8 validation (continuation ranges, overlong and
surrogate exclusion); the lossy decoder additionally mirrors the
substitution-of-maximal-subparts rule: each invalid sequence is
replaced by one U+FFFD and scanning resumes after the bytes the
validator attributes to the error. -/

def isContByte (b : Nat) : Bool := 0x80 ≤ b && b ≤ 0xBF

/-- The admissible first continuation byte after lead b (excludes
overlong encodings, surrogates and values above U+10FFFF). -/
def firstContOk (b b2 : Nat) : Bool :=
  if b = 0xE0 then 0xA0 ≤ b2 && b2 ≤ 0xBF
  else if b = 0xED then 0x80 ≤ b2 && b2 ≤ 0x9F
  else if b = 0xF0 then 0x90 ≤ b2 && b2 ≤ 0xBF
  else if b = 0xF4 then 0x80 ≤ b2 && b2 ≤ 0x8F
  else isContByte b2

/-- Strict UTF-8 decoding: std::str::from_utf8, none on any invalid
byte sequence. -/
def utf8Decode? : List Nat → Option (List Char)
  | [] => some []
  | b :: rest =>
    if b < 0x80 then (utf8Decode? rest).map (fun cs => Char.ofNat b :: cs)
    else if 0xC2 ≤ b && b ≤ 0xDF then
      match rest with
      | b2 :: rest2 =>
        if isContByte b2 then
          (utf8Decode? rest2).map
            (fun cs => Char.ofNat ((b - 0xC0) * 0x40 + (b2 - 0x80)) :: cs)
        else none
      | [] => none
    else if 0xE0 ≤ b && b ≤ 0xEF then
      match rest with
      | b2 :: b3 :: rest3 =>
        if firstContOk b b2 && isContByte b3 then
          (utf8Decode? rest3).map
            (fun cs =>
              Char.ofNat ((b - 0xE0) * 0x1000 + (b2 - 0x80) * 0x40 + (b3 - 0x80)) :: cs)
        else none
      | _ => none
    else if 0xF0 ≤ b && b ≤ 0xF4 then
      match rest with
      | b2 :: b3 :: b4 :: rest4 =>
        if firstContOk b b2 && isContByte b3 && isContByte b4 then
          (utf8Decode? rest4).map
            (fun cs =>
              Char.ofNat ((b - 0xF0) * 0x40000 + (b2 - 0x80) * 0x1000 +
                (b3 - 0x80) * 0x40 + (b4 - 0x80)) :: cs)
        else none
      | _ => none
    else none

/-- The replacement character U+FFFD. -/
def replChar : Char := Char.ofNat 0xFFFD

/-- Lossy UTF-8 decoding: String::from_utf8_lossy. -/
def utf8DecodeLossy : List Nat → List Char
  | [] => []
  | b :: rest =>
    if b < 0x80 then Char.ofNat b :: utf8DecodeLossy rest
    else if 0xC2 ≤ b && b ≤ 0xDF then
      match rest with
      | [] => [replChar]
      | b2 :: rest2 =>
        if isContByte b2 then
          Char.ofNat ((b - 0xC0) * 0x40 + (b2 - 0x80)) :: utf8DecodeLossy rest2
        else replChar :: utf8DecodeLossy (b2 :: rest2)
    else if 0xE0 ≤ b && b ≤ 0xEF then
      match rest with
      | [] => [replChar]
      | b2 :: rest2 =>
        if firstContOk b b2 then
          match rest2 with
          | [] => [replChar]
          | b3 :: rest3 =>
            if isContByte b3 then
              Char.ofNat ((b - 0xE0) * 0x1000 + (b2 - 0x80) * 0x40 + (b3 - 0x80)) ::
                utf8DecodeLossy rest3
            else replChar :: utf8DecodeLossy (b3 :: rest3)
        else replChar :: utf8DecodeLossy (b2 :: rest2)
    else if 0xF0 ≤ b && b ≤ 0xF4 then
      match rest with
      | [] => [replChar]
      | b2 :: rest2 =>
        if firstContOk b b2 then
          match rest2 with
          | [] => [replChar]
          | b3 :: rest3 =>
            if isContByte b3 then
              match rest3 with
              | [] => [replChar]
              | b4 :: rest4 =>
                if isContByte b4 then
                  Char.ofNat ((b - 0xF0) * 0x40000 + (b2 - 0x80) * 0x1000 +
                    (b3 - 0x80) * 0x40 + (b4 - 0x80)) :: utf8DecodeLossy rest4
                else replChar :: utf8DecodeLossy (b4 :: rest4)
            else replChar :: utf8DecodeLossy (b3 :: rest3)
        else replChar :: utf8DecodeLossy (b2 :: rest2)
    else replChar :: utf8DecodeLossy rest

/-! ## Command executor (managers.rs, CommandExecutor) -/

/-- std::process::Output as captured by the shell plugin. -/
structure Output where
  status_success : Bool
  status_code : Option Int
  stdout : List Nat
  stderr : List Nat
deriving DecidableEq, Repr

/-- CommandExecutor::execute_success, as a function of the captured
output of the already-spawned command (spawn failures are orthogonal
and happen before this logic). On a non-zero exit the stderr bytes go
through String::from_utf8_lossy into the CommandFailed error. -/
def execute_success (command : String) (args : List String) (out : Output) :
    Except TwError Output :=
  if out.status_success then .ok out
  else
    .error (.CommandFailed (command ++ " " ++ String.intercalate " " args)
      (out.status_code.getD (-1)) (String.mk (utf8DecodeLossy out.stderr)))

/-- get_service_state (network.rs), as a function of the captured
status stdout bytes: strict UTF-8 decoding via the question-mark
operator, then classification. -/
def get_service_state (stdoutBytes : List Nat) : Except TwError ServiceState :=
  match utf8Decode? stdoutBytes with
  | none => .error .InvalidUtf8
  | some cs => .ok (ServiceState.fromStatusOutput (String.mk cs))

/-- The stderr text used by handle_service_auth (auth.rs line 303):
str::from_utf8(..).unwrap_or("") - empty on invalid UTF-8. -/
def authStderrText (stderrBytes : List Nat) : String :=
  match utf8Decode? stderrBytes with
  | some cs => String.mk cs
  | none => ""

/-! ## URL extraction (utils.rs) -/

/-- The character class of the URL regex body:
everything except whitespace and the bracket characters. -/
def urlAllowedChar (c : Char) : Bool :=
  !(isRustWhitespace c || c = ')' || c = ']' || c = Char.ofNat 0x7d ||
    c = '<' || c = '>' || c = ',')

def matchBody (r : List Char) : Option (List Char) :=
  let body := r.takeWhile urlAllowedChar
  if body.isEmpty then none else some body

/-- The regex tail after the literal "http": optional s (greedy, with
backtracking), then "://", then one or more body characters. -/
def matchAfterHttp (rest : List Char) : Option (List Char) :=
  (match rest with
   | 's' :: ':' :: '/' :: '/' :: r =>
     (matchBody r).map (fun b => 's' :: ':' :: '/' :: '/' :: b)
   | _ => none).orElse (fun _ =>
   match rest with
   | ':' :: '/' :: '/' :: r => (matchBody r).map (fun b => ':' :: '/' :: '/' :: b)
   | _ => none)

def matchUrlAt : List Char → Option (List Char)
  | 'h' :: 't' :: 't' :: 'p' :: rest =>
    (matchAfterHttp rest).map (fun m => 'h' :: 't' :: 't' :: 'p' :: m)
  | _ => none

/-- Leftmost match of the URL regex. -/
def findFirstUrl : List Char → Option (List Char)
  | [] => none
  | c :: cs =>
    match matchUrlAt (c :: cs) with
    | some m => some m
    | none => findFirstUrl cs

/-- Rust str::trim_end_matches with a char set: remove every trailing
character belonging to the set. -/
def trimEndSet (set : List Char) (cs : List Char) : List Char :=
  (cs.reverse.dropWhile (fun c => set.contains c)).reverse

/-- extract_url_from_text: leftmost regex match, rejected when its
byte length is 10 or less, then trailing punctuation trimmed. -/
def extract_url_from_text (text : String) : Option String :=
  match findFirstUrl text.data with
  | none => none
  | some m =>
    if utf8ByteLen m > 10 then
      some (String.mk (trimEndSet ['"']
        (trimEndSet ['.', ',', ')', ']', Char.ofNat 0x7d] m)))
    else none

inductive Panics (α : Type) where
  | ret (a : α)
  | panicked
deriving DecidableEq, Repr

/-- The pattern loop of extract_url_with_pattern. The byte offset of
the pattern occurrence is computed on the lowercased copy
(text_lower.find(pattern)) and then used to slice the original text
(text[search_start..]), which panics when that byte index is not a
char boundary of the original. -/
def extractUrlPatLoop (text textLower : List Char) : List String → Panics (Option String)
  | [] => .ret (extract_url_from_text (String.mk text))
  | pat :: pats =>
    match byteFind textLower pat.data with
    | some pos =>
      let searchStart := pos + utf8ByteLen pat.data
      if searchStart < utf8ByteLen text then
        match sliceFromByte text searchStart with
        | none => .panicked
        | some afterPat =>
          match extract_url_from_text (String.mk afterPat) with
          | some url => .ret (some url)
          | none => extractUrlPatLoop text textLower pats
      else extractUrlPatLoop text textLower pats
    | none => extractUrlPatLoop text textLower pats

/-- extract_url_with_pattern. -/
def extract_url_with_pattern (text : String) (patterns : List String) :
    Panics (Option String) :=
  extractUrlPatLoop text.data (lowerChars text.data) patterns

/-! ## Derived predicates and concrete fixtures -/

/-- The invariant tying the cached snapshot and auth URL to the
service status. -/
def stateInv (s : AppState) : Prop :=
  (s.network.isSome = true ↔ s.service_status = .Connected) ∧
  (∀ url, s.auth_url = some url ↔ s.service_status = .Authenticating url)

/-- A status oracle that always reports a Starting-classified text. -/
def stStarting : Nat → Except TwError String := fun _ => .ok "starting"

/-- A status oracle that always reports a NotRunning-classified text. -/
def stOffline : Nat → Except TwError String := fun _ => .ok "offline"

/-- A status oracle that always reports a Connected-classified text. -/
def stConnected : Nat → Except TwError String := fun _ => .ok "connected"

/-- A status oracle: Starting once, then Connected. -/
def stThenConnected : Nat → Except TwError String :=
  fun k => if k = 0 then .ok "starting" else .ok "connected"

/-- A resources oracle that always returns empty output. -/
def resEmpty : Nat → Except TwError String := fun _ => .ok ""

/-- A resources oracle returning a brace-prefixed non-JSON body. -/
def resBraceGarbage : Nat → Except TwError String := fun _ => .ok "\x7binvalid"

/-- A resources oracle returning a bracket-prefixed non-JSON body. -/
def resBracketGarbage : Nat → Except TwError String := fun _ => .ok "[1,2"

/-- A parse oracle on which serde_json always fails. -/
def parseFail : String → Except String (Option Network) :=
  fun _ => .error "expected value"

/-- Polls that take no measurable time themselves. -/
def pollZero : Nat → Nat := fun _ => 0

/-- The input on which extract_url_with_pattern panics: U+0130 LATIN
CAPITAL LETTER I WITH DOT ABOVE (2 UTF-8 bytes, lowercasing to the
3-byte sequence U+0069 U+0307), then "visit:", then U+00E9 and a URL.
On the lowercased copy the pattern "visit:" is found at byte 3 and
search_start = 9, but in the original text byte 9 falls inside the
2-byte character U+00E9. -/
def panicText : String :=
  String.mk ([Char.ofNat 0x130] ++ "visit:".data ++ [Char.ofNat 0xE9] ++
    " https://ab.cd".data)

/-! # Theorems -/

/-! ## C1 - classifier priority -/

/-- C1: for every status text whose processed form (trimmed,
lowercased, exactly as the classifier computes it) satisfies the
auth-required keyword condition and the connected keyword condition,
ServiceState::from_status_output returns AuthRequired: the
auth-required check is tested first and dominates. -/
theorem C1_auth_required_dominates (s : String)
    (hauth : authRequiredCond (procText s) = true)
    (hconn : connectedCond (procText s) = true) :
    ServiceState.fromStatusOutput s = .AuthRequired := by
  unfold ServiceState.fromStatusOutput
  simp [hauth]

/-- Witness for C1 at the example of the spec,
"connected but authentication is required". -/
theorem C1_auth_required_dominates_witness :
    authRequiredCond (procText "connected but authentication is required") = true ∧
    connectedCond (procText "connected but authentication is required") = true ∧
    ServiceState.fromStatusOutput "connected but authentication is required" =
      .AuthRequired :=
  ⟨by decide, by decide, C1_auth_required_dominates _ (by decide) (by decide)⟩

/-! ## C4 - state transitions -/

/-- C4: from a fresh AppState (NotRunning, no snapshot),
set_authenticating(url) yields Authenticating(url) with the snapshot
cleared; a subsequent update_network(Some(snapshot)) yields Connected
holding exactly that snapshot; update_network(None) yields NotRunning
with no snapshot. -/
theorem C4_state_transitions (url : String) (snap : Network) (t1 t2 t3 : Nat) :
    AppState.new.service_status = .NotRunning ∧
    AppState.new.network = none ∧
    ((AppState.new.set_authenticating t1 url).service_status = .Authenticating url ∧
      (AppState.new.set_authenticating t1 url).network = none) ∧
    (((AppState.new.set_authenticating t1 url).update_network t2 (some snap)).service_status = .Connected ∧
      ((AppState.new.set_authenticating t1 url).update_network t2 (some snap)).network = some snap) ∧
    (((AppState.new.set_authenticating t1 url).update_network t3 none).service_status = .NotRunning ∧
      ((AppState.new.set_authenticating t1 url).update_network t3 none).network = none) := by
  simp [AppState.new, AppState.set_authenticating, AppState.update_network]

/-! ## C9 - state invariant -/

/-- C9: every sequence of update_network / set_authenticating calls
from AppState::new preserves the invariant: the stored snapshot is
Some exactly when the status is Connected, and auth_url returns
some url exactly when the status is Authenticating(url). -/
theorem C9_state_invariant (ops : List StateOp) : stateInv (runOps ops) := by
  suffices h : ∀ s, stateInv s → stateInv (ops.foldl applyOp s) by
    refine h AppState.new ?_
    constructor
    · simp [AppState.new]
    · intro url
      simp [AppState.new, AppState.auth_url]
  intro s hs
  induction ops generalizing s with
  | nil => exact hs
  | cons op ops ih =>
    refine ih (applyOp s op) ?_
    cases op with
    | updateNetwork now n =>
      cases n with
      | none =>
        constructor
        · simp [applyOp, AppState.update_network]
        · intro url
          simp [applyOp, AppState.update_network, AppState.auth_url]
      | some v =>
        constructor
        · simp [applyOp, AppState.update_network]
        · intro url
          simp [applyOp, AppState.update_network, AppState.auth_url]
    | setAuthenticating now url =>
      constructor
      · simp [applyOp, AppState.set_authenticating]
      · intro u
        simp [applyOp, AppState.set_authenticating, AppState.auth_url]

/-- Witness for C9: after a concrete set_authenticating run the
invariant yields the stored URL back. -/
theorem C9_state_invariant_witness :
    (runOps [StateOp.setAuthenticating 5 "https://auth.example.com"]).auth_url =
      some "https://auth.example.com" :=
  ((C9_state_invariant [StateOp.setAuthenticating 5 "https://auth.example.com"]).2
    "https://auth.example.com").mpr (by decide)

/-! ## Retry engine lemmas -/

/-- A transitional status classification makes the loop iteration fall
through to the backoff path without touching resources. -/
theorem fetchStep_transitional (parse : String → Except String (Option Network))
    (res : Except TwError String) (s : String)
    (hcls : ServiceState.fromStatusOutput s = .Starting ∨
      ServiceState.fromStatusOutput s = .Connecting) :
    fetchStep parse (.ok s) res = .retry 0 := by
  rcases hcls with h | h <;> simp [fetchStep, h]

/-- Under an always-transitional status oracle the loop burns its whole
budget: the result is RetryLimitExceeded(maxRetries + 1) and the number
of iterations is the initial retry count plus remaining plus one. -/
theorem fetchLoop_exhausts (stEnv resEnv : Nat → Except TwError String)
    (parse : String → Except String (Option Network))
    (H : ∀ k, ∃ s, stEnv k = .ok s ∧
      (ServiceState.fromStatusOutput s = .Starting ∨
       ServiceState.fromStatusOutput s = .Connecting)) :
    ∀ rem mR rc d si ri,
      (fetchLoop stEnv resEnv parse mR rc d si ri rem).result =
        .error (.RetryLimitExceeded (mR + 1)) ∧
      (fetchLoop stEnv resEnv parse mR rc d si ri rem).attempts = rc + rem + 1 := by
  intro rem
  induction rem with
  | zero =>
    intro mR rc d si ri
    obtain ⟨s, hs, hcls⟩ := H si
    have hstep := fetchStep_transitional parse (resEnv ri) s hcls
    rw [← hs] at hstep
    simp [fetchLoop, hstep]
  | succ rem ih =>
    intro mR rc d si ri
    obtain ⟨s, hs, hcls⟩ := H si
    have hstep := fetchStep_transitional parse (resEnv ri) s hcls
    rw [← hs] at hstep
    have hrec := ih mR (rc + 1) (min (d * 2) MAX_DELAY_MS) (si + 1) (ri + 0)
    constructor
    · simp only [fetchLoop, hstep]
      exact hrec.1
    · simp only [fetchLoop, hstep]
      rw [hrec.2]
      omega

/-- min (min a M * c) M = min (a * c) M for positive c: capping the
delay before doubling gives the same value as capping once at the
end. -/
theorem min_mul_min_cap (a M c : Nat) (hc : 1 ≤ c) :
    min (min a M * c) M = min (a * c) M := by
  rcases Nat.le_total a M with h | h
  · rw [Nat.min_eq_left h]
  · have hM : M ≤ M * c := by
      calc M = M * 1 := (Nat.mul_one M).symm
        _ ≤ M * c := Nat.mul_le_mul_left M hc
    have ha : M ≤ a * c := le_trans h (by
      calc a = a * 1 := (Nat.mul_one a).symm
        _ ≤ a * c := Nat.mul_le_mul_left a hc)
    rw [Nat.min_eq_right h, Nat.min_eq_right hM, Nat.min_eq_right ha]

/-- The i-th recorded backoff delay of a loop started at delay d
(d at most MAX_DELAY_MS) is min (d * 2^i) MAX_DELAY_MS, for every
oracle and every loop state. -/
theorem fetchLoop_delays (stEnv resEnv : Nat → Except TwError String)
    (parse : String → Except String (Option Network)) :
    ∀ rem mR rc d si ri, d ≤ MAX_DELAY_MS →
      ∀ i, i < (fetchLoop stEnv resEnv parse mR rc d si ri rem).delays.length →
        (fetchLoop stEnv resEnv parse mR rc d si ri rem).delays[i]? =
          some (min (d * 2 ^ i) MAX_DELAY_MS) := by
  intro rem
  induction rem with
  | zero =>
    intro mR rc d si ri hd i hi
    cases hstep : fetchStep parse (stEnv si) (resEnv ri) with
    | done r => simp [fetchLoop, hstep] at hi
    | retry n => simp [fetchLoop, hstep] at hi
  | succ rem ih =>
    intro mR rc d si ri hd i hi
    cases hstep : fetchStep parse (stEnv si) (resEnv ri) with
    | done r => simp [fetchLoop, hstep] at hi
    | retry n =>
      simp only [fetchLoop, hstep] at hi ⊢
      cases i with
      | zero =>
        simp [Nat.min_eq_left hd]
      | succ i =>
        simp only [List.length_cons, Nat.succ_lt_succ_iff] at hi
        have hd2 : min (d * 2) MAX_DELAY_MS ≤ MAX_DELAY_MS := Nat.min_le_right _ _
        have hrec := ih mR (rc + 1) (min (d * 2) MAX_DELAY_MS) (si + 1) (ri + n) hd2 i hi
        simp only [List.getElem?_cons_succ]
        rw [hrec]
        congr 1
        rw [min_mul_min_cap _ _ _ (Nat.one_le_pow i 2 (by omega))]
        congr 1
        ring

/-! ## C5 - NotRunning short circuit -/

/-- C5: when the first status attempt classifies as NotRunning,
get_network_data_with_retry returns Ok(None) after exactly one
attempt, with no backoff delay, for every retry budget. -/
theorem C5_notrunning_short_circuit (stEnv resEnv : Nat → Except TwError String)
    (parse : String → Except String (Option Network)) (maxRetries : Nat)
    (s : String) (hst : stEnv 0 = .ok s)
    (hcls : ServiceState.fromStatusOutput s = .NotRunning) :
    getNetworkDataWithRetry stEnv resEnv parse maxRetries = ⟨.ok none, 1, []⟩ := by
  unfold getNetworkDataWithRetry
  have hstep : fetchStep parse (stEnv 0) (resEnv 0) = .done (.ok none) := by
    rw [hst]; simp [fetchStep, hcls]
  cases maxRetries <;> simp [fetchLoop, hstep]

/-- Witness for C5 at the status text "offline" and budget 7. -/
theorem C5_notrunning_short_circuit_witness :
    getNetworkDataWithRetry stOffline resEmpty parseFail 7 = ⟨.ok none, 1, []⟩ :=
  C5_notrunning_short_circuit stOffline resEmpty parseFail 7 "offline" rfl (by decide)

/-! ## C2 - retry exhaustion -/

/-- C2: for every status oracle that always classifies as Starting or
Connecting, get_network_data_with_retry(maxRetries) performs exactly
maxRetries + 1 attempts and returns
Err(RetryLimitExceeded(maxRetries + 1)). -/
theorem C2_retry_exhaustion (stEnv resEnv : Nat → Except TwError String)
    (parse : String → Except String (Option Network)) (maxRetries : Nat)
    (H : ∀ k, ∃ s, stEnv k = .ok s ∧
      (ServiceState.fromStatusOutput s = .Starting ∨
       ServiceState.fromStatusOutput s = .Connecting)) :
    (getNetworkDataWithRetry stEnv resEnv parse maxRetries).result =
      .error (.RetryLimitExceeded (maxRetries + 1)) ∧
    (getNetworkDataWithRetry stEnv resEnv parse maxRetries).attempts =
      maxRetries + 1 := by
  have h := fetchLoop_exhausts stEnv resEnv parse H maxRetries maxRetries 0
    BASE_DELAY_MS 0 0
  unfold getNetworkDataWithRetry
  exact ⟨h.1, by rw [h.2]; omega⟩

/-- Witness for C2: the always-Starting oracle with maxRetries = 3
makes 4 attempts and fails with RetryLimitExceeded(4). -/
theorem C2_retry_exhaustion_witness :
    (getNetworkDataWithRetry stStarting resEmpty parseFail 3).result =
      .error (.RetryLimitExceeded 4) ∧
    (getNetworkDataWithRetry stStarting resEmpty parseFail 3).attempts = 4 :=
  C2_retry_exhaustion stStarting resEmpty parseFail 3
    (fun _ => ⟨"starting", rfl, Or.inl (by decide)⟩)

/-! ## C6 - backoff schedule -/

/-- C6: the backoff delay slept before retry attempt k (0-based index
k - 1 in the recorded list) is min(1000 * 2^(k-1), 10000) ms - first
delay 1000, doubling, capped at 10000 - and the default retry budget
used by get_network_data is MAX_RETRIES = 8. -/
theorem C6_backoff_schedule (stEnv resEnv : Nat → Except TwError String)
    (parse : String → Except String (Option Network)) (maxRetries : Nat) :
    (∀ i, i < (getNetworkDataWithRetry stEnv resEnv parse maxRetries).delays.length →
      (getNetworkDataWithRetry stEnv resEnv parse maxRetries).delays[i]? =
        some (min (BASE_DELAY_MS * 2 ^ i) MAX_DELAY_MS)) ∧
    MAX_RETRIES = 8 ∧ BASE_DELAY_MS = 1000 ∧ MAX_DELAY_MS = 10000 ∧
    getNetworkData stEnv resEnv parse =
      getNetworkDataWithRetry stEnv resEnv parse MAX_RETRIES := by
  refine ⟨?_, rfl, rfl, rfl, rfl⟩
  intro i hi
  exact fetchLoop_delays stEnv resEnv parse maxRetries maxRetries 0 BASE_DELAY_MS
    0 0 (by decide) i hi

/-- Witness for C6: with the always-Starting oracle and budget 2 the
second recorded delay is min(1000 * 2, 10000) = 2000 ms. -/
theorem C6_backoff_schedule_witness :
    (getNetworkDataWithRetry stStarting resEmpty parseFail 2).delays[1]? =
      some (min (BASE_DELAY_MS * 2 ^ 1) MAX_DELAY_MS) :=
  (C6_backoff_schedule stStarting resEmpty parseFail 2).1 1 (by decide)

/-! ## C3 - JSON errors during the fetch loop -/

/-- C3 counterexample: with status classifying Connected, a resources
body starting with a brace that fails JSON parsing, and a retry budget
of 3 still fully available, get_network_data_with_retry returns the
JsonError to the caller after a single attempt with no backoff sleep -
it does not fall into the retry path. -/
theorem C3_counterexample :
    getNetworkDataWithRetry stConnected resBraceGarbage parseFail 3 =
      ⟨.error (.JsonError "expected value"), 1, []⟩ := by
  decide

/-- C3 amended: a JsonError from the resources command while the
status classifies Connected is terminal for the fetch: the loop
returns it immediately (one attempt, no delays), whatever the
remaining retry budget. -/
theorem C3_json_error_is_terminal (stEnv resEnv : Nat → Except TwError String)
    (parse : String → Except String (Option Network)) (maxRetries : Nat)
    (s r msg : String) (hst : stEnv 0 = .ok s)
    (hcls : ServiceState.fromStatusOutput s = .Connected)
    (hres : resEnv 0 = .ok r)
    (hjson : tryGetResourcesData parse r = .error (.JsonError msg)) :
    getNetworkDataWithRetry stEnv resEnv parse maxRetries =
      ⟨.error (.JsonError msg), 1, []⟩ := by
  unfold getNetworkDataWithRetry
  have hstep : fetchStep parse (stEnv 0) (resEnv 0) = .done (.error (.JsonError msg)) := by
    rw [hst]
    simp [fetchStep, hcls, tryResources, hres, hjson]
  cases maxRetries <;> simp [fetchLoop, hstep]

/-- Witness for C3 (amended) at a bracket-prefixed unparsable body
with budget 5. -/
theorem C3_json_error_is_terminal_witness :
    getNetworkDataWithRetry stConnected resBracketGarbage parseFail 5 =
      ⟨.error (.JsonError "expected value"), 1, []⟩ :=
  C3_json_error_is_terminal stConnected resBracketGarbage parseFail 5
    "connected" "[1,2" "expected value" rfl (by decide) rfl (by decide)

/-! ## C7 - wait_for_service_ready -/

/-- When no poll ever sees Connected, the polling loop runs to the
wall-clock timeout and reports AuthenticationTimeout, whatever mix of
transitional states and status errors the polls return. -/
theorem waitLoop_timeout (stEnv : Nat → Except TwError String) (pollDur : Nat → Nat)
    (T : Nat) (H : ∀ j, pollSeesConnected (stEnv j) = false) :
    ∀ n elapsed k, T * 1000 - elapsed ≤ n →
      (waitLoop stEnv pollDur T elapsed k).result =
        .error (.AuthenticationTimeout T) := by
  intro n
  induction n with
  | zero =>
    intro elapsed k hn
    have hge : ¬ elapsed < T * 1000 := by omega
    rw [waitLoop]
    simp [hge]
  | succ n ih =>
    intro elapsed k hn
    by_cases hlt : elapsed < T * 1000
    · rw [waitLoop]
      cases hst : stEnv k with
      | ok s =>
        have hc := H k
        rw [hst] at hc
        simp only [pollSeesConnected, beq_eq_false_iff_ne, ne_eq] at hc
        simp [hlt, hst, hc]
        exact ih _ _ (by omega)
      | error e =>
        simp [hlt, hst]
        exact ih _ _ (by omega)
    · rw [waitLoop]
      simp [hlt]

/-- When the kk-th poll from position k is the first to see Connected
and the loop is still inside the timeout window when it happens, the
polling loop returns Ok. -/
theorem waitLoop_connected (stEnv : Nat → Except TwError String) (pollDur : Nat → Nat)
    (T : Nat) :
    ∀ kk elapsed k,
      (∀ j, j < kk → pollSeesConnected (stEnv (k + j)) = false) →
      pollSeesConnected (stEnv (k + kk)) = true →
      elapsed + relElapsed pollDur k kk < T * 1000 →
      (waitLoop stEnv pollDur T elapsed k).result = .ok () := by
  intro kk
  induction kk with
  | zero =>
    intro elapsed k hpre hconn hel
    simp only [relElapsed] at hel
    have hlt : elapsed < T * 1000 := by omega
    rw [Nat.add_zero] at hconn
    rw [waitLoop]
    cases hst : stEnv k with
    | ok s =>
      rw [hst] at hconn
      simp only [pollSeesConnected, beq_iff_eq] at hconn
      simp [hlt, hst, hconn]
    | error e =>
      rw [hst] at hconn
      simp [pollSeesConnected] at hconn
  | succ kk ih =>
    intro elapsed k hpre hconn hel
    have hrel : relElapsed pollDur k (kk + 1) =
        pollDur k + 1000 + relElapsed pollDur (k + 1) kk := rfl
    have hlt : elapsed < T * 1000 := by rw [hrel] at hel; omega
    have h0 : pollSeesConnected (stEnv k) = false := by
      have := hpre 0 (by omega)
      simpa using this
    have hnext := ih (elapsed + pollDur k + 1000) (k + 1)
      (fun j hj => by
        have hp := hpre (j + 1) (by omega)
        have hidx : k + (j + 1) = k + 1 + j := by omega
        rwa [hidx] at hp)
      (by
        have hidx : k + (kk + 1) = k + 1 + kk := by omega
        rwa [hidx] at hconn)
      (by rw [hrel] at hel; omega)
    rw [waitLoop]
    cases hst : stEnv k with
    | ok s =>
      rw [hst] at h0
      simp only [pollSeesConnected, beq_eq_false_iff_ne, ne_eq] at h0
      simp [hlt, hst, h0]
      exact hnext
    | error e =>
      simp [hlt, hst]
      exact hnext

/-- C7: wait_for_service_ready polls the service state with a 1000 ms
sleep per iteration and (a) when no poll ever observes Connected -
transitional states and status-command errors included - it runs to
the wall-clock timeout and returns
Err(AuthenticationTimeout(timeout_seconds)); (b) it returns Ok(()) as
soon as a poll observes Connected, provided that poll starts before
timeout_seconds of wall-clock time have elapsed. -/
theorem C7_wait_for_service_ready (stEnv : Nat → Except TwError String)
    (pollDur : Nat → Nat) (timeoutSeconds : Nat) :
    ((∀ j, pollSeesConnected (stEnv j) = false) →
      (waitForServiceReady stEnv pollDur timeoutSeconds).result =
        .error (.AuthenticationTimeout timeoutSeconds)) ∧
    (∀ k, (∀ j, j < k → pollSeesConnected (stEnv j) = false) →
      pollSeesConnected (stEnv k) = true →
      elapsedBefore pollDur k < timeoutSeconds * 1000 →
      (waitForServiceReady stEnv pollDur timeoutSeconds).result = .ok ()) := by
  constructor
  · intro H
    exact waitLoop_timeout stEnv pollDur timeoutSeconds H
      (timeoutSeconds * 1000) 0 0 (by omega)
  · intro k hpre hconn hel
    refine waitLoop_connected stEnv pollDur timeoutSeconds k 0 0
      (fun j hj => by simpa using hpre j hj) (by simpa using hconn) ?_
    simpa [elapsedBefore] using hel

/-- Witness for C7: a never-Connected oracle times out after the
default 120 s with AuthenticationTimeout(120); an oracle that reports
Connected on its second poll yields Ok. -/
theorem C7_wait_for_service_ready_witness :
    (waitForServiceReady stOffline pollZero 120).result =
      .error (.AuthenticationTimeout 120) ∧
    (waitForServiceReady stThenConnected pollZero 120).result = .ok () := by
  constructor
  · exact (C7_wait_for_service_ready stOffline pollZero 120).1 (fun j => rfl)
  · refine (C7_wait_for_service_ready stThenConnected pollZero 120).2 1 ?_ (by decide) (by decide)
    intro j hj
    have hj0 : j = 0 := by omega
    subst hj0
    decide

/-! ## C8 - UTF-8 decoding discipline -/

/-- C8 counterexample: a failed command whose stderr bytes are not
valid UTF-8 does not make execute_success fail with InvalidUtf8; the
stderr is converted lossily and the 0xFF byte becomes the replacement
character U+FFFD inside the CommandFailed error. -/
theorem C8_counterexample :
    utf8Decode? [0xFF] = none ∧
    execute_success "twingate" ["status"] ⟨false, some 1, [], [0xFF]⟩ =
      .error (.CommandFailed "twingate status" 1 (String.mk [replChar])) ∧
    execute_success "twingate" ["status"] ⟨false, some 1, [], [0xFF]⟩ ≠
      .error .InvalidUtf8 := by
  refine ⟨rfl, rfl, by decide⟩

/-- C8 amended: the stdout consumed for state decisions is decoded as
strict UTF-8 and fails with InvalidUtf8 (get_service_state shown
here); but the stderr used to build CommandFailed in execute_success
is converted lossily and never produces InvalidUtf8, and the stderr
read by handle_service_auth falls back to the empty string on invalid
UTF-8. -/
theorem C8_utf8_discipline :
    (∀ bytes, utf8Decode? bytes = none →
      get_service_state bytes = .error .InvalidUtf8) ∧
    (∀ cmd args out, execute_success cmd args out ≠ .error .InvalidUtf8) ∧
    (∀ bytes, utf8Decode? bytes = none → authStderrText bytes = "") := by
  refine ⟨?_, ?_, ?_⟩
  · intro bytes h
    unfold get_service_state
    rw [h]
  · intro cmd args out
    unfold execute_success
    split
    · simp
    · simp
  · intro bytes h
    unfold authStderrText
    rw [h]

/-- Witness for C8 (amended) at the invalid byte strings [0xFF] and
[0xC3]. -/
theorem C8_utf8_discipline_witness :
    get_service_state [0xFF] = .error .InvalidUtf8 ∧
    authStderrText [0xC3] = "" :=
  ⟨C8_utf8_discipline.1 [0xFF] (by decide),
   C8_utf8_discipline.2.2 [0xC3] (by decide)⟩

/-! ## C10 - extract_url_with_pattern totality -/

/-- C10: extract_url_with_pattern is not total - on the text
U+0130 ++ "visit:" ++ U+00E9 ++ " https://ab.cd" with pattern list
["visit:"], the byte offset of the pattern match found on the
lowercased copy (where U+0130 occupies three bytes) lands inside the
two-byte character U+00E9 of the original text, and the slice
text[search_start..] panics. -/
theorem C10_pattern_slice_panics :
    extract_url_with_pattern panicText ["visit:"] = .panicked := by
  decide

end Twingate
